import Mathlib

/-!
Verification development for the z3-Agent repository.

The repository ships a Python backend (FastAPI pipeline: unified processor,
FAISS retrieval, BGE reranker, quality gate, escalation/ticketing) and a
Next.js admin frontend. The frontend TypeScript sources are embedded here
directly; the backend pipeline modules (app/core/*.py, app/config.py,
app/services/ticket_service.py) are not part of the source tree available
here, so their behavior is modelled from the specification document, as
marked on each such definition.

Scores are modelled as rationals (ℚ); machine floats are not modelled.
-/

namespace Z3

/-! ### Data model -/

/-- A document returned by the vector index (spec §3, Retrieved Document;
frontend type `DocumentResult` before reranking). -/
structure RetrievedDoc where
  content : String
  source_id : String
  raw_score : ℚ
deriving Repr, DecidableEq

/-- A reranked document (spec §3, Reranked Document; frontend type
`DocumentResult` with `reranker_score`). -/
structure RerankedDoc where
  content : String
  source_id : String
  reranker_score : ℚ
deriving Repr, DecidableEq

/-- Descending-score comparison used to order reranked documents:
`scoreGE a b` holds when `a`'s score is at least `b`'s. -/
def scoreGE (a b : RerankedDoc) : Prop :=
  b.reranker_score ≤ a.reranker_score

instance : DecidableRel scoreGE := fun a b =>
  inferInstanceAs (Decidable (b.reranker_score ≤ a.reranker_score))

instance : IsTotal RerankedDoc scoreGE :=
  ⟨fun a b => (le_total b.reranker_score a.reranker_score).imp id id⟩

instance : IsTrans RerankedDoc scoreGE :=
  ⟨fun _ _ _ hab hbc => le_trans hbc hab⟩

/-! ### Frontend: chat input (src/unnamed/part_008, `ChatInput.handleSubmit`) -/

/-- The observable effect of one invocation of the chat input's submit
handler: `sent` is the argument passed to `onSend` (or `none` when `onSend`
is not invoked), `newValue` is the text field's value afterwards. -/
structure SubmitEffect where
  sent : Option String
  newValue : String
deriving Repr, DecidableEq

/-- Embeds `ChatInput.handleSubmit`:
`const text = value.trim(); if (!text || disabled) return; onSend(text); setValue("")`.
JavaScript `!text` on a string is truth-testing for the empty string;
`value.trim()` is modelled by `String.trim`. -/
def handleSubmit (value : String) (disabled : Bool) : SubmitEffect :=
  let text := value.trim
  if text = "" ∨ disabled = true then ⟨none, value⟩
  else ⟨some text, ""⟩

/-! ### Frontend: ticket edit form (TicketDetail.tsx, `handleSave`) -/

/-- The fields of a ticket read by `TicketDetail.handleSave`
(frontend type `Ticket`; optional fields are `Option`). -/
structure TicketRec where
  id : String
  status : String
  assigned_to : Option String
  resolution_note : Option String
deriving Repr, DecidableEq

/-- The PATCH body type (frontend `TicketUpdateRequest`); an absent field
(`undefined` in TypeScript, dropped by `JSON.stringify`) is `none`. -/
structure TicketUpdateRequest where
  status : Option String
  assigned_to : Option String
  resolution_note : Option String
deriving Repr, DecidableEq

/-- Embeds the body construction in `TicketDetail.handleSave`:
each field is sent iff the edited form value differs from the ticket's
current value, where a missing `assigned_to`/`resolution_note` is compared
against `""` (the `ticket.assigned_to || ""` idiom). -/
def handleSaveBody (ticket : TicketRec)
    (status assignedTo resolutionNote : String) : TicketUpdateRequest :=
  { status := if status ≠ ticket.status then some status else none
    assigned_to :=
      if assignedTo ≠ (ticket.assigned_to.getD "") then some assignedTo else none
    resolution_note :=
      if resolutionNote ≠ (ticket.resolution_note.getD "") then some resolutionNote
      else none }

/-! ### Unified Processor (spec §4.1; backend module app/core/unified_processor.py
is absent from the available sources, so it is modelled from the spec) -/

/-- Routing decision of the Unified Processor (spec §3). -/
inductive Routing
  | direct
  | docs
  | web
deriving Repr, DecidableEq

/-- Processing Result (spec §3), extended with the `degraded` mark the spec
requires on fail-soft (§4.1). -/
structure ProcessingResult where
  routing_decision : Routing
  reformulated_query : String
  escalate : Bool
  reasoning : String
  degraded : Bool
deriving Repr, DecidableEq

/-- Modelled from the spec: the parsed fields of the single LLM invocation's
reply, before the routing string is validated (app/core/unified_processor.py
is absent). -/
structure ModelOutput where
  routing_raw : String
  reformulated : String
  escalate : Bool
  reasoning : String
deriving Repr, DecidableEq

/-- Modelled from the spec: validation of the model's routing string against
the closed routing vocabulary {direct, docs, web} (§3, §4.1). -/
def parseRouting (s : String) : Option Routing :=
  if s = "direct" then some Routing.direct
  else if s = "docs" then some Routing.docs
  else if s = "web" then some Routing.web
  else none

/-- Modelled from the spec: §4.1 Unified Processor. `modelResult = none`
stands for a failed model call; an `ok` result whose routing string does not
parse is unparsable. Both fail soft: `routing_decision = docs`,
`reformulated_query = raw_text`, `escalate = false`, result marked degraded. -/
def unifiedProcess (modelResult : Option ModelOutput) (rawText : String) :
    ProcessingResult :=
  match modelResult with
  | none =>
    ⟨Routing.docs, rawText, false, "processor call failed; fail-soft defaults", true⟩
  | some out =>
    match parseRouting out.routing_raw with
    | none =>
      ⟨Routing.docs, rawText, false, "unparsable processor output; fail-soft defaults",
        true⟩
    | some r => ⟨r, out.reformulated, out.escalate, out.reasoning, false⟩

/-! ### Reranker (spec §4.3; backend module app/core/reranker.py is absent,
modelled from the spec) -/

/-- Modelled from the spec: the cross-encoder assigns a `reranker_score` to
each retrieved document for the given query; the scoring model itself is an
external collaborator, abstracted as the function `scoreOf`. -/
def scoredDocs (scoreOf : String → RetrievedDoc → ℚ) (query : String)
    (documents : List RetrievedDoc) : List RerankedDoc :=
  documents.map fun d => ⟨d.content, d.source_id, scoreOf query d⟩

/-- Modelled from the spec: the full candidate set sorted by descending
`reranker_score`, order-stable on ties (§4.3). A stable insertion sort under
`scoreGE` realizes exactly this contract. -/
def rerankAll (scoreOf : String → RetrievedDoc → ℚ) (query : String)
    (documents : List RetrievedDoc) : List RerankedDoc :=
  List.insertionSort scoreGE (scoredDocs scoreOf query documents)

/-- Modelled from the spec: `rerank(query, documents, top_n)` — the sorted
candidates truncated to the requested width (§4.3). -/
def rerank (scoreOf : String → RetrievedDoc → ℚ) (query : String)
    (documents : List RetrievedDoc) (top_n : ℕ) : List RerankedDoc :=
  (rerankAll scoreOf query documents).take top_n

/-- Pass-through used when reranking is disabled per configuration (§4.3):
retrieved documents keep their order with `reranker_score = raw_score`. -/
def passThroughDocs (documents : List RetrievedDoc) : List RerankedDoc :=
  documents.map fun d => ⟨d.content, d.source_id, d.raw_score⟩

/-! ### Quality Gate (spec §4.4; backend module app/core/rag.py is absent,
modelled from the spec) -/

/-- The three gate actions (spec §3, Gate Decision). -/
inductive GateAction
  | proceed
  | proceed_with_flag
  | escalate
deriving Repr, DecidableEq

/-- Escalation stage (spec §3, glossary). -/
inductive Stage
  | pre_rag
  | post_rag
deriving Repr, DecidableEq

/-- Gate Decision (spec §3), with stage and reason populated on escalation. -/
structure GateDecision where
  action : GateAction
  stage : Option Stage
  reason : Option String
  top_score : Option ℚ
deriving Repr, DecidableEq

/-- Modelled from the spec: §4.4 Quality Gate, a pure function of the
processor's escalate flag, the reranked documents (the head of the
descending-ordered list carries the top score), and the two thresholds. -/
def qualityGate (escalateFlag : Bool) (docs : List RerankedDoc)
    (good medium : ℚ) : GateDecision :=
  if escalateFlag then
    ⟨GateAction.escalate, some Stage.pre_rag, some "user-signaled escalation", none⟩
  else
    match docs with
    | [] =>
      ⟨GateAction.escalate, some Stage.post_rag, some "no relevant context", none⟩
    | d :: _ =>
      if good ≤ d.reranker_score then
        ⟨GateAction.proceed, none, none, some d.reranker_score⟩
      else if medium ≤ d.reranker_score then
        ⟨GateAction.proceed_with_flag, none, none, some d.reranker_score⟩
      else
        ⟨GateAction.escalate, some Stage.post_rag, some "low confidence",
          some d.reranker_score⟩

/-! ### Configuration (spec §6 configuration surface, §7 taxonomy (2);
backend module app/config.py is absent, modelled from the spec; field names
follow the frontend `AgentConfig` interface) -/

/-- The configuration fields the core pipeline reads (frontend `AgentConfig`
interface, restricted to the pipeline-relevant fields). -/
structure AgentConfig where
  retrieval_k : ℕ
  reranker_top_k : ℕ
  use_reranker : Bool
  quality_gate_threshold_good : ℚ
  quality_gate_threshold_medium : ℚ
deriving Repr, DecidableEq

/-- Modelled from the spec: configuration load. The invariant `good > medium`
is checked here; a violation is a fatal configuration error and no
`AgentConfig` value is produced, so the pipeline never serves traffic with
such thresholds (§4.4, §7 taxonomy (2)). -/
def loadConfig (good medium : ℚ) (k top_k : ℕ) (useReranker : Bool) :
    Except String AgentConfig :=
  if good ≤ medium then
    Except.error "invalid quality gate thresholds: good must exceed medium"
  else
    Except.ok ⟨k, top_k, useReranker, good, medium⟩

/-! ### Escalation Coordinator and ticket store (spec §4.6, §5;
backend module app/services/ticket_service.py is absent, modelled from the
spec; ticket fields follow the frontend `Ticket` interface, whose `status`
is the string union "open" | "in_progress" | "resolved" | "closed") -/

/-- An escalation ticket (spec §3; frontend `Ticket` interface, restricted
to the fields the coordinator writes). -/
structure Ticket where
  ticket_id : ℕ
  session_id : String
  stage : Stage
  reason : String
  original_query : String
  quality_score : Option ℚ
  status : String
deriving Repr, DecidableEq

/-- The open tickets of a session currently in the dedup window. -/
def openTicketsFor (store : List Ticket) (sess : String) : List Ticket :=
  store.filter fun t => t.session_id = sess ∧ t.status = "open"

/-- Result of the coordinator's persistence step: a fresh ticket was
created, or the escalation was linked to the already-open ticket. -/
inductive TicketRef
  | created (id : ℕ)
  | linked (id : ℕ)
deriving Repr, DecidableEq

/-- Modelled from the spec: §4.6 step 2 — the dedup check-and-set, executed
atomically inside the per-session critical section (§5): if the session
already has an open ticket in the window, the new escalation links to it;
otherwise the ticket is persisted with status "open". -/
def createOrLinkTicket (store : List Ticket) (t : Ticket) :
    List Ticket × TicketRef :=
  match openTicketsFor store t.session_id with
  | [] => ({ t with status := "open" } :: store, TicketRef.created t.ticket_id)
  | ex :: _ => (store, TicketRef.linked ex.ticket_id)

/-! ### Reply Generator (spec §4.5; backend module app/core/reply.py is
absent, modelled from the spec) -/

/-- Modelled from the spec: the deterministic generic fallback reply the
user receives when generation fails (§4.5, §7) — never internal error text. -/
def fallbackReply : String :=
  "Maaf, sistem sedang mengalami kendala. Silakan coba lagi sebentar lagi."

/-- Modelled from the spec: the user-facing acknowledgment emitted on
escalation, bypassing the Reply Generator (§4.6 step 4). -/
def ackReply : String :=
  "Sedang menghubungkan Anda dengan tim support kami."

/-- Modelled from the spec: §4.5 — the generation model's reply, or the
deterministic fallback (with the turn marked errored) when the call fails. -/
def generateReply (modelResult : Option String) : String × Bool :=
  match modelResult with
  | some r => (r, false)
  | none => (fallbackReply, true)

/-! ### Per-turn pipeline (spec §2 control flow, §6 `process_turn`;
backend module app/core/chain.py is absent, modelled from the spec) -/

/-- The external collaborators a turn consults: the processor model call
result, the reply model (context to reply; `none` is a failed call), the
vector index, and the cross-encoder. -/
structure PipelineEnv where
  procModel : Option ModelOutput
  replyModel : String → Option String
  retrieve : String → ℕ → List RetrievedDoc
  scoreOf : String → RetrievedDoc → ℚ

/-- Per-turn outcome of `process_turn` (spec §6): the user-facing reply
text, whether a Reply Generator output was produced, the ticket reference
when the turn escalated, the error mark for monitoring, and the
review-flag mark of `proceed_with_flag` turns. -/
structure TurnOutcome where
  reply : String
  generated : Bool
  ticket : Option TicketRef
  errored : Bool
  flagged : Bool
deriving Repr

/-- The reply-generation context assembled from the selected documents. -/
def contextOf (docs : List RerankedDoc) : String :=
  String.intercalate "\n" (docs.map fun d => d.content)

/-- Modelled from the spec: act on a Gate Decision — Reply Generator on
`proceed` (flagging the turn on `proceed_with_flag`), Escalation
Coordinator on `escalate` (§2, §4.6). `genResult` is the reply model's
call result, `degraded` the processor's degradation mark carried into the
turn's error mark, `t` the ticket the coordinator would persist. -/
def actOnGate (gate : GateDecision) (genResult : Option String)
    (degraded : Bool) (t : Ticket) (store : List Ticket) :
    TurnOutcome × List Ticket :=
  match gate.action with
  | GateAction.proceed =>
    let gen := generateReply genResult
    (⟨gen.1, true, none, degraded || gen.2, false⟩, store)
  | GateAction.proceed_with_flag =>
    let gen := generateReply genResult
    (⟨gen.1, true, none, degraded || gen.2, true⟩, store)
  | GateAction.escalate =>
    let persisted := createOrLinkTicket store t
    (⟨ackReply, false, some persisted.2, degraded, false⟩, persisted.1)

/-- Modelled from the spec: §2 control flow composed end to end —
Unified Processor, then either direct reply generation, or retrieval,
optional reranking, Quality Gate, and finally Reply Generator or
Escalation Coordinator. Returns the turn outcome and the updated ticket
store. -/
def processTurn (cfg : AgentConfig) (env : PipelineEnv)
    (rawText sess : String) (store : List Ticket) (nextId : ℕ) :
    TurnOutcome × List Ticket :=
  let proc := unifiedProcess env.procModel rawText
  if proc.escalate then
    let t : Ticket :=
      ⟨nextId, sess, Stage.pre_rag, "user-signaled escalation", rawText, none, "open"⟩
    let persisted := createOrLinkTicket store t
    (⟨ackReply, false, some persisted.2, proc.degraded, false⟩, persisted.1)
  else if proc.routing_decision = Routing.direct then
    let gen := generateReply (env.replyModel "")
    (⟨gen.1, true, none, proc.degraded || gen.2, false⟩, store)
  else
    let raw := env.retrieve proc.reformulated_query cfg.retrieval_k
    let reranked :=
      if cfg.use_reranker then
        rerank env.scoreOf proc.reformulated_query raw cfg.reranker_top_k
      else passThroughDocs raw
    let gate :=
      qualityGate proc.escalate reranked cfg.quality_gate_threshold_good
        cfg.quality_gate_threshold_medium
    actOnGate gate (env.replyModel (contextOf reranked)) proc.degraded
      ⟨nextId, sess, Stage.post_rag, gate.reason.getD "low confidence", rawText,
        gate.top_score, "open"⟩ store

/-! ### Debug entry point (spec §6 debug/introspection; backend module
app/api/rag_test.py is absent, modelled from the spec; request fields
follow the frontend `RAGTestRequest` interface) -/

/-- Caller-supplied overrides of the RAG test endpoint (frontend
`RAGTestRequest`, minus the query itself). -/
structure RAGTestOverrides where
  k_docs : Option ℕ
  use_reranker : Option Bool
  reranker_top_k : Option ℕ
  skip_unified_processor : Bool
deriving Repr, DecidableEq

/-- The intermediate stage outputs the debug endpoint exposes (frontend
`RAGTestResponse`, the stage fields). -/
structure RAGTestOutput where
  unified_processor : Option ProcessingResult
  raw_documents : List RetrievedDoc
  reranked_documents : List RerankedDoc
  quality_gate : GateDecision
deriving Repr

/-- The mutable state the pipeline owns across turns: the ticket store and
the per-session conversation histories (spec §5). -/
structure PipelineState where
  tickets : List Ticket
  histories : List (String × List String)
deriving Repr, DecidableEq

/-- Modelled from the spec: §6 debug/introspection — run each pipeline
stage for the given query under the caller-supplied overrides and return
the per-stage outputs; the state is read-only for this entry point: no
session mutation, no ticket creation. -/
def ragTest (cfg : AgentConfig) (env : PipelineEnv) (ov : RAGTestOverrides)
    (query : String) (st : PipelineState) : RAGTestOutput × PipelineState :=
  let proc :=
    if ov.skip_unified_processor then none
    else some (unifiedProcess env.procModel query)
  let q :=
    match proc with
    | some p => p.reformulated_query
    | none => query
  let raw := env.retrieve q (ov.k_docs.getD cfg.retrieval_k)
  let reranked :=
    if ov.use_reranker.getD cfg.use_reranker then
      rerank env.scoreOf q raw (ov.reranker_top_k.getD cfg.reranker_top_k)
    else passThroughDocs raw
  let esc :=
    match proc with
    | some p => p.escalate
    | none => false
  let gate :=
    qualityGate esc reranked cfg.quality_gate_threshold_good
      cfg.quality_gate_threshold_medium
  (⟨proc, raw, reranked, gate⟩, st)

/-! ## Claims -/

/-- C10: the chat input's submit handler invokes `onSend` exactly when the
input is not disabled and the whitespace-trimmed text is non-empty; in that
case it passes the trimmed text and clears the field, otherwise it sends
nothing and leaves the field unchanged — so an empty or whitespace-only
message is never sent from the UI. -/
theorem chatInput_handleSubmit_spec (value : String) (disabled : Bool) :
    ((handleSubmit value disabled).sent =
      if value.trim = "" ∨ disabled = true then none else some value.trim) ∧
    ((handleSubmit value disabled).newValue =
      if value.trim = "" ∨ disabled = true then value else "") ∧
    ((handleSubmit value disabled).sent.isSome = true ↔
      disabled = false ∧ value.trim ≠ "") := by
  by_cases ht : value.trim = "" <;> cases disabled <;>
    simp [handleSubmit, ht]

/-- C9: the PATCH body built by `TicketDetail.handleSave` contains each of
`status`, `assigned_to`, `resolution_note` iff the edited value differs
from the ticket's current value (missing `assigned_to`/`resolution_note`
compared as the empty string); an unchanged field is never included. -/
theorem ticketDetail_handleSave_spec (t : TicketRec)
    (status assignedTo resolutionNote : String) :
    ((handleSaveBody t status assignedTo resolutionNote).status = some status ↔
      status ≠ t.status) ∧
    ((handleSaveBody t status assignedTo resolutionNote).status = none ↔
      status = t.status) ∧
    ((handleSaveBody t status assignedTo resolutionNote).assigned_to =
        some assignedTo ↔ assignedTo ≠ t.assigned_to.getD "") ∧
    ((handleSaveBody t status assignedTo resolutionNote).assigned_to = none ↔
      assignedTo = t.assigned_to.getD "") ∧
    ((handleSaveBody t status assignedTo resolutionNote).resolution_note =
        some resolutionNote ↔ resolutionNote ≠ t.resolution_note.getD "") ∧
    ((handleSaveBody t status assignedTo resolutionNote).resolution_note = none ↔
      resolutionNote = t.resolution_note.getD "") := by
  by_cases h1 : status = t.status <;>
    by_cases h2 : assignedTo = t.assigned_to.getD "" <;>
      by_cases h3 : resolutionNote = t.resolution_note.getD "" <;>
        simp [handleSaveBody, h1, h2, h3]

/-- C2: loading a configuration with `good ≤ medium` fails (fatal at
configuration time, no `AgentConfig` is produced), and every accepted
configuration satisfies `medium < good`. -/
theorem loadConfig_threshold_invariant (good medium : ℚ) (k top_k : ℕ)
    (useReranker : Bool) :
    (good ≤ medium →
      loadConfig good medium k top_k useReranker =
        Except.error "invalid quality gate thresholds: good must exceed medium") ∧
    (∀ cfg, loadConfig good medium k top_k useReranker = Except.ok cfg →
      cfg.quality_gate_threshold_medium < cfg.quality_gate_threshold_good) := by
  constructor
  · intro h
    simp [loadConfig, h]
  · intro cfg hcfg
    unfold loadConfig at hcfg
    split at hcfg
    · exact absurd hcfg (by simp)
    · cases hcfg
      simpa using lt_of_not_le (by assumption)

/-- C2 witness: at thresholds good = 0, medium = 1 the load fails; a
configuration accepted at good = 1, medium = 0 satisfies the invariant. -/
theorem loadConfig_threshold_invariant_witness :
    ((0 : ℚ) ≤ 1 →
      loadConfig 0 1 7 3 true =
        Except.error "invalid quality gate thresholds: good must exceed medium") ∧
    ((loadConfig 1 0 7 3 true = Except.ok ⟨7, 3, true, 1, 0⟩) ∧
      ((0 : ℚ) < 1)) :=
  ⟨(loadConfig_threshold_invariant 0 1 7 3 true).1,
    rfl,
    (loadConfig_threshold_invariant 1 0 7 3 true).2 ⟨7, 3, true, 1, 0⟩ rfl⟩

/-- C4: when the Unified Processor's model call fails, or returns a result
whose routing string does not parse, the processor returns the fail-soft
Processing Result: `routing_decision = docs`, `reformulated_query` equal to
the raw input text, `escalate = false`, marked degraded. -/
theorem unifiedProcessor_fail_soft (rawText : String) (out : ModelOutput) :
    ((unifiedProcess none rawText).routing_decision = Routing.docs ∧
      (unifiedProcess none rawText).reformulated_query = rawText ∧
      (unifiedProcess none rawText).escalate = false ∧
      (unifiedProcess none rawText).degraded = true) ∧
    (parseRouting out.routing_raw = none →
      (unifiedProcess (some out) rawText).routing_decision = Routing.docs ∧
      (unifiedProcess (some out) rawText).reformulated_query = rawText ∧
      (unifiedProcess (some out) rawText).escalate = false ∧
      (unifiedProcess (some out) rawText).degraded = true) := by
  constructor
  · simp [unifiedProcess]
  · intro hp
    simp [unifiedProcess, hp]

/-- C4 witness: a failed model call on the raw text "halo", and an
unparsable routing string "banana", both yield the fail-soft result. -/
theorem unifiedProcessor_fail_soft_witness :
    ((unifiedProcess none "halo").routing_decision = Routing.docs ∧
      (unifiedProcess none "halo").reformulated_query = "halo" ∧
      (unifiedProcess none "halo").escalate = false ∧
      (unifiedProcess none "halo").degraded = true) ∧
    ((unifiedProcess (some ⟨"banana", "q", true, "r"⟩) "halo").routing_decision =
        Routing.docs ∧
      (unifiedProcess (some ⟨"banana", "q", true, "r"⟩) "halo").reformulated_query =
        "halo" ∧
      (unifiedProcess (some ⟨"banana", "q", true, "r"⟩) "halo").escalate = false ∧
      (unifiedProcess (some ⟨"banana", "q", true, "r"⟩) "halo").degraded = true) :=
  ⟨(unifiedProcessor_fail_soft "halo" ⟨"banana", "q", true, "r"⟩).1,
    (unifiedProcessor_fail_soft "halo" ⟨"banana", "q", true, "r"⟩).2 (by decide)⟩

/-- C1: the Quality Gate is a pure function of the escalate flag, the
reranked documents and the thresholds (with `medium < good`): escalate flag
set gives `escalate` at stage `pre_rag`; no documents gives `escalate` at
stage `post_rag` with reason "no relevant context"; a top score at least
`good` gives `proceed`; a top score in `[medium, good)` gives
`proceed_with_flag`; a top score below `medium` gives `escalate` at stage
`post_rag` with reason "low confidence". With thresholds good = 0.6 and
medium = 0.3, top score 0.72 yields `proceed`, 0.45 yields
`proceed_with_flag`, and 0.1 yields `escalate` at stage `post_rag`. -/
theorem qualityGate_case_spec (good medium : ℚ) (h : medium < good)
    (flag : Bool) (docs : List RerankedDoc) :
    (flag = true →
      (qualityGate flag docs good medium).action = GateAction.escalate ∧
      (qualityGate flag docs good medium).stage = some Stage.pre_rag) ∧
    (flag = false → docs = [] →
      (qualityGate flag docs good medium).action = GateAction.escalate ∧
      (qualityGate flag docs good medium).stage = some Stage.post_rag ∧
      (qualityGate flag docs good medium).reason = some "no relevant context") ∧
    (∀ d rest, flag = false → docs = d :: rest → good ≤ d.reranker_score →
      (qualityGate flag docs good medium).action = GateAction.proceed) ∧
    (∀ d rest, flag = false → docs = d :: rest → medium ≤ d.reranker_score →
      d.reranker_score < good →
      (qualityGate flag docs good medium).action = GateAction.proceed_with_flag) ∧
    (∀ d rest, flag = false → docs = d :: rest → d.reranker_score < medium →
      (qualityGate flag docs good medium).action = GateAction.escalate ∧
      (qualityGate flag docs good medium).stage = some Stage.post_rag ∧
      (qualityGate flag docs good medium).reason = some "low confidence") ∧
    ((qualityGate false
        [⟨"d1", "s1", 0.72⟩, ⟨"d2", "s2", 0.55⟩, ⟨"d3", "s3", 0.31⟩]
        0.6 0.3).action = GateAction.proceed) ∧
    ((qualityGate false [⟨"d1", "s1", 0.45⟩] 0.6 0.3).action =
      GateAction.proceed_with_flag) ∧
    ((qualityGate false [⟨"d1", "s1", 0.1⟩] 0.6 0.3).action =
        GateAction.escalate ∧
      (qualityGate false [⟨"d1", "s1", 0.1⟩] 0.6 0.3).stage =
        some Stage.post_rag) := by
  refine ⟨?_, ?_, ?_, ?_, ?_, ?_, ?_, ?_⟩
  · intro hf
    simp [qualityGate, hf]
  · intro hf hd
    simp [qualityGate, hf, hd]
  · intro d rest hf hd hs
    simp [qualityGate, hf, hd, hs]
  · intro d rest hf hd hm hg
    simp [qualityGate, hf, hd, not_le.mpr hg, hm]
  · intro d rest hf hd hm
    have hg : ¬ good ≤ d.reranker_score := not_le.mpr (hm.trans h)
    simp [qualityGate, hf, hd, hg, not_le.mpr hm]
  · norm_num [qualityGate]
  · norm_num [qualityGate]
  · norm_num [qualityGate]

/-- C1 witness: thresholds good = 1, medium = 0 (so `medium < good`), with
the escalate flag clear and no retrieved documents: the gate escalates at
stage `post_rag` with reason "no relevant context". -/
theorem qualityGate_case_spec_witness :
    ((0 : ℚ) < 1) ∧
    ((qualityGate false ([] : List RerankedDoc) 1 0).action =
        GateAction.escalate ∧
      (qualityGate false ([] : List RerankedDoc) 1 0).stage =
        some Stage.post_rag ∧
      (qualityGate false ([] : List RerankedDoc) 1 0).reason =
        some "no relevant context") :=
  ⟨zero_lt_one,
    (qualityGate_case_spec 1 0 zero_lt_one false []).2.1 rfl rfl⟩

/-- C3: `rerank(query, documents, top_n)` returns the descending stable
sort of the scored documents truncated to `top_n`: its length is
`min top_n |documents|`, it is ordered by descending `reranker_score`, and
tied documents keep their original retrieval order (a tied pair that is a
sublist of the scored input stays a sublist of the sorted sequence, stated
with List.Sublist). For
documents scored [0.2, 0.9, 0.5] and top_n = 2 the output is the
0.9-scored document followed by the 0.5-scored document. -/
theorem rerank_contract (scoreOf : String → RetrievedDoc → ℚ) (query : String)
    (documents : List RetrievedDoc) (top_n : ℕ) (h : 1 ≤ top_n) :
    ((rerank scoreOf query documents top_n).length =
      min top_n documents.length) ∧
    List.Sorted scoreGE (rerank scoreOf query documents top_n) ∧
    (rerank scoreOf query documents top_n =
      (rerankAll scoreOf query documents).take top_n) ∧
    (∀ a b : RerankedDoc, a.reranker_score = b.reranker_score →
      List.Sublist [a, b] (scoredDocs scoreOf query documents) →
      List.Sublist [a, b] (rerankAll scoreOf query documents)) ∧
    (rerank (fun _ d => d.raw_score) "q"
        [⟨"a", "sa", 0.2⟩, ⟨"b", "sb", 0.9⟩, ⟨"c", "sc", 0.5⟩] 2 =
      [⟨"b", "sb", 0.9⟩, ⟨"c", "sc", 0.5⟩]) := by
  refine ⟨?_, ?_, rfl, ?_, ?_⟩
  · simp [rerank, rerankAll, scoredDocs]
  · exact List.Pairwise.sublist (List.take_sublist _ _)
      (List.sorted_insertionSort scoreGE _)
  · intro a b heq hsub
    exact List.pair_sublist_insertionSort (le_of_eq heq.symm) hsub
  · norm_num [rerank, rerankAll, scoredDocs, List.insertionSort,
      List.orderedInsert, scoreGE]

/-- C3 witness: for the concrete three documents and top_n = 2, the output
length is min 2 3. -/
theorem rerank_contract_witness :
    (1 ≤ 2) ∧
    ((rerank (fun _ d => d.raw_score) "q"
        [⟨"a", "sa", 0.2⟩, ⟨"b", "sb", 0.9⟩, ⟨"c", "sc", 0.5⟩] 2).length =
      min 2 3) :=
  ⟨by decide,
    (rerank_contract (fun _ d => d.raw_score) "q"
      [⟨"a", "sa", 0.2⟩, ⟨"b", "sb", 0.9⟩, ⟨"c", "sc", 0.5⟩] 2 (by decide)).1⟩

/-- Helper: the fallback reply is non-empty. -/
lemma fallbackReply_length_pos : 0 < fallbackReply.length := by decide

/-- Helper: the acknowledgment reply is non-empty. -/
lemma ackReply_length_pos : 0 < ackReply.length := by decide

/-- Helper: acting on any Gate Decision yields a Reply Generator output
exactly when it yields no ticket. -/
lemma actOnGate_generated_eq_ticket_isNone (gate : GateDecision)
    (genResult : Option String) (degraded : Bool) (t : Ticket)
    (store : List Ticket) :
    (actOnGate gate genResult degraded t store).1.generated =
      (actOnGate gate genResult degraded t store).1.ticket.isNone := by
  unfold actOnGate
  rcases gate with ⟨act, stg, rsn, ts⟩
  cases act <;> rfl

/-- Helper: acting on any Gate Decision with a failed reply model and a
degraded processor yields a non-empty canned reply and the errored mark. -/
lemma actOnGate_degraded_failure (gate : GateDecision) (t : Ticket)
    (store : List Ticket) :
    ((actOnGate gate none true t store).1.reply = fallbackReply ∨
      (actOnGate gate none true t store).1.reply = ackReply) ∧
    0 < (actOnGate gate none true t store).1.reply.length ∧
    (actOnGate gate none true t store).1.errored = true := by
  unfold actOnGate
  rcases gate with ⟨act, stg, rsn, ts⟩
  cases act
  · exact ⟨Or.inl rfl, fallbackReply_length_pos, rfl⟩
  · exact ⟨Or.inl rfl, fallbackReply_length_pos, rfl⟩
  · exact ⟨Or.inr rfl, ackReply_length_pos, rfl⟩

/-- C5: every turn that reaches a terminal decision produces exactly one of
{a Reply Generator output, an escalation ticket}: the `generated` mark and
the ticket reference are complementary, for every configuration,
environment, input and store. -/
theorem processTurn_reply_ticket_xor (cfg : AgentConfig) (env : PipelineEnv)
    (rawText sess : String) (store : List Ticket) (nextId : ℕ) :
    (processTurn cfg env rawText sess store nextId).1.generated =
      (processTurn cfg env rawText sess store nextId).1.ticket.isNone := by
  unfold processTurn
  by_cases h1 : (unifiedProcess env.procModel rawText).escalate = true
  · simp [h1]
  · by_cases h2 :
      (unifiedProcess env.procModel rawText).routing_decision = Routing.direct
    · simp [h1, h2]
    · simp only [h1, h2, Bool.not_eq_true, if_false, Bool.false_eq_true,
        reduceIte]
      exact actOnGate_generated_eq_ticket_isNone _ _ _ _ _

/-- C8: a turn whose Unified Processor model call and Reply Generator model
call both fail still returns a non-empty reply — the generic fallback or
the escalation acknowledgment, never internal error text — and the turn is
marked errored. -/
theorem processTurn_total_failure (cfg : AgentConfig)
    (retrieve : String → ℕ → List RetrievedDoc)
    (scoreOf : String → RetrievedDoc → ℚ)
    (rawText sess : String) (store : List Ticket) (nextId : ℕ) :
    ((processTurn cfg ⟨none, fun _ => none, retrieve, scoreOf⟩
        rawText sess store nextId).1.reply = fallbackReply ∨
      (processTurn cfg ⟨none, fun _ => none, retrieve, scoreOf⟩
        rawText sess store nextId).1.reply = ackReply) ∧
    (0 < (processTurn cfg ⟨none, fun _ => none, retrieve, scoreOf⟩
        rawText sess store nextId).1.reply.length) ∧
    ((processTurn cfg ⟨none, fun _ => none, retrieve, scoreOf⟩
        rawText sess store nextId).1.errored = true) := by
  have hproc : unifiedProcess
      (PipelineEnv.procModel ⟨none, fun _ => none, retrieve, scoreOf⟩) rawText =
      ⟨Routing.docs, rawText, false, "processor call failed; fail-soft defaults",
        true⟩ := rfl
  unfold processTurn
  rw [hproc]
  simp only [if_false, Bool.false_eq_true, reduceIte]
  exact actOnGate_degraded_failure _ _ _

/-- C6: escalation dedup per session — from a state with no open ticket for
the session, the first escalating turn creates the ticket, the second
(serialized after it by the per-session critical section) links to the
created ticket instead of duplicating, leaving exactly one open ticket;
and the at-most-one-open-ticket bound is preserved by every
check-and-set. -/
theorem escalation_dedup (store : List Ticket) (sess : String)
    (t1 t2 : Ticket) (h1 : t1.session_id = sess) (h2 : t2.session_id = sess)
    (h0 : openTicketsFor store sess = []) :
    ((createOrLinkTicket store t1).2 = TicketRef.created t1.ticket_id) ∧
    ((createOrLinkTicket (createOrLinkTicket store t1).1 t2).2 =
      TicketRef.linked t1.ticket_id) ∧
    ((openTicketsFor
        (createOrLinkTicket (createOrLinkTicket store t1).1 t2).1 sess).length
      = 1) ∧
    (∀ (st : List Ticket) (t : Ticket), t.session_id = sess →
      (openTicketsFor st sess).length ≤ 1 →
      (openTicketsFor (createOrLinkTicket st t).1 sess).length ≤ 1) := by
  have hstep : createOrLinkTicket store t1 =
      ({ t1 with status := "open" } :: store, TicketRef.created t1.ticket_id) := by
    unfold createOrLinkTicket
    rw [h1, h0]
  have hopen1 : openTicketsFor ({ t1 with status := "open" } :: store) sess =
      [{ t1 with status := "open" }] := by
    unfold openTicketsFor at h0 ⊢
    rw [List.filter_cons_of_pos (by simp [h1]), h0]
  refine ⟨by rw [hstep], ?_, ?_, ?_⟩
  · rw [hstep]
    unfold createOrLinkTicket
    rw [h2, hopen1]
  · rw [hstep]
    unfold createOrLinkTicket
    rw [h2, hopen1]
    simp [hopen1]
  · intro st t ht hle
    unfold createOrLinkTicket
    rcases hm : openTicketsFor st t.session_id with _ | ⟨ex, rest⟩
    · rw [ht] at hm
      have : openTicketsFor ({ t with status := "open" } :: st) sess =
          [{ t with status := "open" }] := by
        unfold openTicketsFor at hm ⊢
        rw [List.filter_cons_of_pos (by simp [ht]), hm]
      simp [this]
    · simpa using hle

/-- C6 witness: from an empty store and session "s", two escalating turns
produce one created ticket and one link to it, with exactly one open
ticket at the end. -/
theorem escalation_dedup_witness :
    (openTicketsFor ([] : List Ticket) "s" = []) ∧
    ((createOrLinkTicket []
        (⟨1, "s", Stage.pre_rag, "r1", "q1", none, "open"⟩ : Ticket)).2 =
      TicketRef.created 1) ∧
    ((createOrLinkTicket
        (createOrLinkTicket []
          (⟨1, "s", Stage.pre_rag, "r1", "q1", none, "open"⟩ : Ticket)).1
        (⟨2, "s", Stage.post_rag, "r2", "q2", none, "open"⟩ : Ticket)).2 =
      TicketRef.linked 1) ∧
    ((openTicketsFor
        (createOrLinkTicket
          (createOrLinkTicket []
            (⟨1, "s", Stage.pre_rag, "r1", "q1", none, "open"⟩ : Ticket)).1
          (⟨2, "s", Stage.post_rag, "r2", "q2", none, "open"⟩ : Ticket)).1
        "s").length = 1) :=
  ⟨rfl,
    (escalation_dedup [] "s"
      ⟨1, "s", Stage.pre_rag, "r1", "q1", none, "open"⟩
      ⟨2, "s", Stage.post_rag, "r2", "q2", none, "open"⟩ rfl rfl rfl).1,
    (escalation_dedup [] "s"
      ⟨1, "s", Stage.pre_rag, "r1", "q1", none, "open"⟩
      ⟨2, "s", Stage.post_rag, "r2", "q2", none, "open"⟩ rfl rfl rfl).2.1,
    (escalation_dedup [] "s"
      ⟨1, "s", Stage.pre_rag, "r1", "q1", none, "open"⟩
      ⟨2, "s", Stage.post_rag, "r2", "q2", none, "open"⟩ rfl rfl rfl).2.2.1⟩

/-- C7: the RAG test entry point is read-only: for every query, overrides
and pipeline state, it leaves the state (ticket store and session
histories) unchanged, and returns each stage's intermediate output —
Processing Result (unless skipped), raw documents, reranked documents and
Gate Decision — computed by the same stage functions as the live
pipeline. -/
theorem ragTest_read_only (cfg : AgentConfig) (env : PipelineEnv)
    (ov : RAGTestOverrides) (query : String) (st : PipelineState) :
    ((ragTest cfg env ov query st).2 = st) ∧
    ((ragTest cfg env ov query st).2.tickets = st.tickets) ∧
    ((ragTest cfg env ov query st).2.histories = st.histories) ∧
    ((ragTest cfg env ov query st).1.unified_processor =
      if ov.skip_unified_processor then none
      else some (unifiedProcess env.procModel query)) ∧
    ((ragTest cfg env ov query st).1.raw_documents =
      env.retrieve
        (match
          (if ov.skip_unified_processor then none
           else some (unifiedProcess env.procModel query)) with
          | some p => p.reformulated_query
          | none => query)
        (ov.k_docs.getD cfg.retrieval_k)) ∧
    ((ragTest cfg env ov query st).1.quality_gate =
      qualityGate
        (match
          (if ov.skip_unified_processor then none
           else some (unifiedProcess env.procModel query)) with
          | some p => p.escalate
          | none => false)
        (ragTest cfg env ov query st).1.reranked_documents
        cfg.quality_gate_threshold_good cfg.quality_gate_threshold_medium) :=
  ⟨rfl, rfl, rfl, rfl, rfl, rfl⟩

end Z3
